import Mathlib

/-!
# Verification of the `@restash/client` upload SDK

A shallow embedding of the repository's two entry points:

* `createRestashUploader` — the uploader factory returning the async upload
  function that runs the prepare → transfer → confirm protocol, and
* `generateSig` — the HMAC-SHA256 signature generator.

The development follows `src/unnamed/part_001`, which is the revision of
`index.ts` that the repository's own tests (`src/tests/signature.test.ts`,
importing `generateSig`, exercising Blob inputs and the `name` option) and
README quickstart are written against; `src/src/index.ts` is an earlier
revision of the same module.

Modelling conventions:

* The remote world (signature endpoint, prepare endpoint, the presigned
  destination, confirm endpoint) is an explicit `Env` parameter holding the
  responses each endpoint would return.  `axios.post` to the destination is
  modelled with axios's default response validation: this revision passes no
  `validateStatus` option, so a non-2xx response rejects the awaited promise
  with "Request failed with status code N" before the code's own status
  check can run (only the earlier revision's `validateStatus: () => true`
  made that check reachable).
* Network effects are reified as a trace: the upload function returns, besides
  its `Except` result, the list of outbound requests issued and the list of
  progress values passed to the `onProgress` callback.
* JavaScript falsiness of the string/option fields that the source tests with
  `!x` or `x || d` is modelled explicitly: an absent JSON string field and an
  empty one are both the empty string / `none` as appropriate.
* Randomness (`randomBytes(8)` for the Blob display name, the `randomUUID`
  nonce bytes) and the clock (`Date.now()`) are explicit parameters.
* Machine arithmetic is `Nat` with explicit `% 2 ^ 32` where SHA-256 needs
  wraparound; `Math.round` of the exact rational `loaded * 100 / total` is
  the round-half-up integer `(2 * a + b) / (2 * b)`.
-/

/-! ## Hex encoding (`Buffer.toString("hex")`) -/

/-- One lowercase hexadecimal digit; the catch-all case is never reached on
the nibbles (`< 16`) the code produces. -/
def hexDigit (n : Nat) : Char :=
  match n with
  | 0 => '0' | 1 => '1' | 2 => '2' | 3 => '3'
  | 4 => '4' | 5 => '5' | 6 => '6' | 7 => '7'
  | 8 => '8' | 9 => '9' | 10 => 'a' | 11 => 'b'
  | 12 => 'c' | 13 => 'd' | 14 => 'e' | 15 => 'f'
  | _ => '0'

/-- The sixteen lowercase hexadecimal characters. -/
def lowerHexChars : List Char :=
  "0123456789abcdef".data

/-- Hex encoding of a byte list, two characters per byte, as
`Buffer.toString("hex")` produces. -/
def bytesToHexChars (bs : List Nat) : List Char :=
  bs.foldr (fun b acc => hexDigit (b / 16 % 16) :: hexDigit (b % 16) :: acc) []

/-- Hex encoding of a byte list as a string. -/
def bytesToHex (bs : List Nat) : String :=
  ⟨bytesToHexChars bs⟩

/-! ## Data model (`index.ts` types) -/

/-- What `file instanceof Blob` / `file instanceof File` can observe about the
argument: not a Blob at all, a raw `Blob`, or a `File` (which in the DOM is a
`Blob` with a name). -/
inductive FileKind where
  | notBlob
  | blob
  | file
deriving DecidableEq

/-- The upload argument.  `name` is only meaningful when `kind = file`
(a raw `Blob` has no name; for a non-Blob the function never reads it). -/
structure FileArg where
  kind : FileKind
  name : String
  type : String
  size : Nat
deriving DecidableEq

/-- The `UploadOptions` record: optional name override, optional destination
path, and whether an `onProgress` callback was supplied. -/
structure UploadOptions where
  name : Option String
  path : Option String
  hasOnProgress : Bool
deriving DecidableEq

/-- The `UploadProgress` value passed to the `onProgress` callback. -/
structure UploadProgress where
  percent : Nat
  loaded : Nat
  total : Nat
deriving DecidableEq

/-- The `UploadResult` returned verbatim from the confirm endpoint. -/
structure UploadResult where
  id : String
  url : String
  key : String
  name : String
  size : Nat
  contentType : String
deriving DecidableEq

/-- The body of the prepare request
(`{file: {name, type, size, path?}, signature?, payload?}`). -/
structure PrepareBody where
  name : String
  type : String
  size : Nat
  path : Option String
  signature : Option String
  payload : Option String
deriving DecidableEq

/-- One outbound network request of the upload pipeline. -/
inductive NetCall where
  | sigReq (url : String)
  | prepareReq (body : PrepareBody)
  | transferReq (url : String) (fields : List (String × String))
  | confirmReq (confirmToken : String)
deriving DecidableEq

/-- Response of the caller's signature endpoint (`fetch(handleSignature)`):
HTTP success flag and the parsed `{signature, payload}` body, with absent
fields as the empty string. -/
structure SigEnv where
  ok : Bool
  signature : String
  payload : String
deriving DecidableEq

/-- Response of `POST /v1/uploads/prepare`: HTTP success flag, the error
message used when not ok, and the parsed `{url, fields, confirmToken}` body
(absent `url`/`confirmToken` as `""`, absent `fields` as `none`). -/
structure PrepareEnv where
  ok : Bool
  errorMessage : String
  url : String
  fields : Option (List (String × String))
  confirmToken : String
deriving DecidableEq

/-- One transfer-progress event as axios delivers it: `loaded` bytes so far
and the possibly-unknown `total`. -/
structure ProgressEvent where
  loaded : Nat
  total : Option Nat
deriving DecidableEq

/-- Behaviour of the destination URL during the transfer step: the progress
events fired while uploading and the final HTTP status. -/
structure TransferEnv where
  status : Nat
  events : List ProgressEvent
deriving DecidableEq

/-- Response of `POST /v1/uploads/confirm`. -/
structure ConfirmEnv where
  ok : Bool
  errorMessage : String
  result : UploadResult
deriving DecidableEq

/-- The remote world one upload invocation interacts with. -/
structure Env where
  sigRes : SigEnv
  prepareRes : PrepareEnv
  transfer : TransferEnv
  confirmRes : ConfirmEnv
deriving DecidableEq

deriving instance DecidableEq for Except

/-- Observable outcome of one upload invocation: the settled promise, the
trace of outbound requests, and the values passed to `onProgress`. -/
structure UploadOutcome where
  result : Except String UploadResult
  calls : List NetCall
  progress : List UploadProgress
deriving DecidableEq

/-! ## JavaScript helpers -/

/-- JavaScript `s.startsWith(p)`: `p`'s characters are a prefix of `s`'s. -/
def jsStartsWith (s p : String) : Bool :=
  p.data.isPrefixOf s.data

/-- JavaScript `o || d` on an optional string: `undefined` and `""` are both
falsy and fall through to the default. -/
def jsOrStr (o : Option String) (d : String) : String :=
  match o with
  | some s => if s = "" then d else s
  | none => d

/-- The truthy refinement of an optional string, as used by the
`...(x && { x })` spread: the field is included only when defined and
non-empty. -/
def truthyOpt (o : Option String) : Option String :=
  match o with
  | some s => if s = "" then none else some s
  | none => none

/-- JavaScript `total || 1`: an unknown (`undefined`) or zero total becomes
`1` (the division-by-zero guard in the progress handler). -/
def jsTotal (t : Option Nat) : Nat :=
  match t with
  | some n => if n = 0 then 1 else n
  | none => 1

/-- JavaScript `Math.round (a / b)` for naturals with `b > 0`: round half up,
computed exactly as the floor of `(2a + b) / 2b`. -/
def jsRound (a b : Nat) : Nat :=
  (2 * a + b) / (2 * b)

/-- The progress value the handler builds from one axios event:
`{ percent: Math.round(loaded * 100 / (total || 1)), loaded, total: total || 1 }`. -/
def progressOf (e : ProgressEvent) : UploadProgress :=
  { percent := jsRound (e.loaded * 100) (jsTotal e.total)
    loaded := e.loaded
    total := jsTotal e.total }

/-- Decimal digits of `n`, most significant first; the fuel argument
(instantiated with `n + 1`, always sufficient) only makes the recursion
structural. -/
def decDigitsAux : Nat → Nat → List Char
  | 0, _ => []
  | fuel + 1, n =>
    if n < 10 then [hexDigit n]
    else decDigitsAux fuel (n / 10) ++ [hexDigit (n % 10)]

/-- Decimal rendering of a natural, as JavaScript renders an integer into a
string: the template literal `"${timestamp}"` and the status interpolation of
axios's "Request failed with status code N" message. -/
def decRepr (n : Nat) : String := ⟨decDigitsAux (n + 1) n⟩

/-! ## The upload pipeline (`createRestashUploader`, `src/unnamed/part_001`) -/

/-- Confirm step: `POST /v1/uploads/confirm` with the confirm token; a
non-success response surfaces the server's error message, otherwise the JSON
body is returned verbatim. -/
def confirmStep (calls0 : List NetCall) (progress : List UploadProgress)
    (env : Env) : UploadOutcome :=
  let calls := calls0 ++ [NetCall.confirmReq env.prepareRes.confirmToken]
  if env.confirmRes.ok = false then
    { result := Except.error env.confirmRes.errorMessage, calls := calls, progress := progress }
  else
    { result := Except.ok env.confirmRes.result, calls := calls, progress := progress }

/-- Transfer step: post the multipart form to the destination URL; progress
events fire through `onProgress` while it runs.  This revision calls
`axios.post` without a `validateStatus` option, so axios's default
validation (`status >= 200 && status < 300`) makes `await` reject any
non-2xx response with the `AxiosError` message
"Request failed with status code N" — the first branch below.  The source's
own subsequent check, `if (uploadRes.status < 200 || uploadRes.status >=
300) throw new Error("Failed to upload file")`, is embedded behind it as the
second branch, where it is unreachable: every status it would catch has
already rejected. -/
def transferStep (calls0 : List NetCall) (opts : UploadOptions) (env : Env) :
    UploadOutcome :=
  let calls := calls0 ++
    [NetCall.transferReq env.prepareRes.url (env.prepareRes.fields.getD [])]
  let progress :=
    if opts.hasOnProgress then env.transfer.events.map progressOf else []
  if env.transfer.status < 200 ∨ 300 ≤ env.transfer.status then
    { result := Except.error
        ("Request failed with status code " ++ decRepr env.transfer.status),
      calls := calls, progress := progress }
  else if env.transfer.status < 200 ∨ 300 ≤ env.transfer.status then
    { result := Except.error "Failed to upload file", calls := calls, progress := progress }
  else
    confirmStep calls progress env

/-- The JSON body of the prepare request, with the truthiness-guarded spreads
of `path`, `signature` and `payload`. -/
def mkPrepareBody (name : String) (file : FileArg) (opts : UploadOptions)
    (sig : Option (String × String)) : PrepareBody :=
  { name := name
    type := file.type
    size := file.size
    path := truthyOpt opts.path
    signature := truthyOpt (sig.map Prod.fst)
    payload := truthyOpt (sig.map Prod.snd) }

/-- Prepare step: `POST /v1/uploads/prepare` with the file metadata and the
signature pair when present; a non-success response surfaces the server's
message, and a success body with falsy `url`, `fields` or `confirmToken` is
`"Invalid response from prepare upload"`. -/
def prepareStep (name : String) (file : FileArg) (opts : UploadOptions)
    (sig : Option (String × String)) (calls0 : List NetCall) (env : Env) :
    UploadOutcome :=
  let calls := calls0 ++ [NetCall.prepareReq (mkPrepareBody name file opts sig)]
  if env.prepareRes.ok = false then
    { result := Except.error env.prepareRes.errorMessage, calls := calls, progress := [] }
  else if env.prepareRes.url = "" ∨ env.prepareRes.fields.isNone = true ∨
      env.prepareRes.confirmToken = "" then
    { result := Except.error "Invalid response from prepare upload", calls := calls, progress := [] }
  else
    transferStep calls opts env

/-- Signature step: when a `handleSignature` URL is configured, fetch it;
a non-success status is `"Failed to get signature"`, and a falsy `signature`
or `payload` in the body is rejected before the prepare request. -/
def sigStep (handleSignature : Option String) (name : String) (file : FileArg)
    (opts : UploadOptions) (env : Env) : UploadOutcome :=
  match handleSignature with
  | none => prepareStep name file opts none [] env
  | some hs =>
    let calls := [NetCall.sigReq hs]
    if env.sigRes.ok = false then
      { result := Except.error "Failed to get signature", calls := calls, progress := [] }
    else if env.sigRes.signature = "" then
      { result := Except.error "Your signature endpoint did not return a valid signature",
        calls := calls, progress := [] }
    else if env.sigRes.payload = "" then
      { result := Except.error "Your signature endpoint did not return a valid payload",
        calls := calls, progress := [] }
    else
      prepareStep name file opts (some (env.sigRes.signature, env.sigRes.payload)) calls env

/-- The async upload function returned by the factory.  `rb` is the output of
`randomBytes(8)` (consulted only for an unnamed Blob), `env` the remote
world.  Validation order is that of the source: public key presence, then the
`sk_` prefix, then `file instanceof Blob`, then the name is resolved as
`options.name || (isFile ? file.name : randomBytes(8).toString("hex"))`. -/
def uploadFn (publicKey : String) (handleSignature : Option String)
    (file : FileArg) (opts : UploadOptions) (rb : List Nat) (env : Env) :
    UploadOutcome :=
  if publicKey = "" then
    { result := Except.error "Public key is required", calls := [], progress := [] }
  else if jsStartsWith publicKey "sk_" then
    { result := Except.error "Public key is invalid. You are currently using a secret key",
      calls := [], progress := [] }
  else if file.kind = FileKind.notBlob then
    { result := Except.error "Invalid file passed in. Please pass in a File or Blob",
      calls := [], progress := [] }
  else
    let name := jsOrStr opts.name
      (if file.kind = FileKind.file then file.name else bytesToHex rb)
    sigStep handleSignature name file opts env

/-- The `RestashUploaderOptions` record configuring the factory. -/
structure RestashUploaderOptions where
  publicKey : String
  handleSignature : Option String
deriving DecidableEq

/-- The uploader factory: a total function that performs no validation itself
and returns the upload closure (all checks run when that closure is
invoked). -/
def createRestashUploader (o : RestashUploaderOptions) :
    FileArg → UploadOptions → List Nat → Env → UploadOutcome :=
  fun file opts rb env => uploadFn o.publicKey o.handleSignature file opts rb env

/-- Number of transfer-step requests in a trace. -/
def transferCount (calls : List NetCall) : Nat :=
  calls.countP fun c => match c with
    | NetCall.transferReq _ _ => true
    | _ => false

/-- Number of prepare-step requests in a trace. -/
def prepareCount (calls : List NetCall) : Nat :=
  calls.countP fun c => match c with
    | NetCall.prepareReq _ => true
    | _ => false

/-! ## SHA-256 and HMAC (Node `crypto.createHmac("sha256", key)`)

Words are `Nat` values kept below `2 ^ 32` by explicit reduction. -/

/-- Reduction modulo `2 ^ 32`. -/
def w32 (n : Nat) : Nat := n % 4294967296

/-- Right rotation of a 32-bit word. -/
def rotr32 (n x : Nat) : Nat := w32 ((x >>> n) ||| (x <<< (32 - n)))

/-- SHA-256 big sigma 0. -/
def bsig0 (x : Nat) : Nat := rotr32 2 x ^^^ rotr32 13 x ^^^ rotr32 22 x

/-- SHA-256 big sigma 1. -/
def bsig1 (x : Nat) : Nat := rotr32 6 x ^^^ rotr32 11 x ^^^ rotr32 25 x

/-- SHA-256 small sigma 0. -/
def ssig0 (x : Nat) : Nat := rotr32 7 x ^^^ rotr32 18 x ^^^ (x >>> 3)

/-- SHA-256 small sigma 1. -/
def ssig1 (x : Nat) : Nat := rotr32 17 x ^^^ rotr32 19 x ^^^ (x >>> 10)

/-- SHA-256 choice function. -/
def ch32 (e f g : Nat) : Nat := (e &&& f) ^^^ ((e ^^^ 4294967295) &&& g)

/-- SHA-256 majority function. -/
def maj32 (a b c : Nat) : Nat := (a &&& b) ^^^ (a &&& c) ^^^ (b &&& c)

/-- The 64 SHA-256 round constants (FIPS 180-4, written in decimal). -/
def sha256K : List Nat :=
  [1116352408, 1899447441, 3049323471, 3921009573, 961987163, 1508970993,
   2453635748, 2870763221, 3624381080, 310598401, 607225278, 1426881987,
   1925078388, 2162078206, 2614888103, 3248222580, 3835390401, 4022224774,
   264347078, 604807628, 770255983, 1249150122, 1555081692, 1996064986,
   2554220882, 2821834349, 2952996808, 3210313671, 3336571891, 3584528711,
   113926993, 338241895, 666307205, 773529912, 1294757372, 1396182291,
   1695183700, 1986661051, 2177026350, 2456956037, 2730485921, 2820302411,
   3259730800, 3345764771, 3516065817, 3600352804, 4094571909, 275423344,
   430227734, 506948616, 659060556, 883997877, 958139571, 1322822218,
   1537002063, 1747873779, 1955562222, 2024104815, 2227730452, 2361852424,
   2428436474, 2756734187, 3204031479, 3329325298]

/-- The eight-word SHA-256 working state. -/
structure Hash8 where
  a : Nat
  b : Nat
  c : Nat
  d : Nat
  e : Nat
  f : Nat
  g : Nat
  h : Nat
deriving DecidableEq

/-- The SHA-256 initial hash value (FIPS 180-4, written in decimal). -/
def sha256Init : Hash8 :=
  ⟨1779033703, 3144134277, 1013904242, 2773480762,
   1359893119, 2600822924, 528734635, 1541459225⟩

/-- Big-endian byte expansion of `n` on `k` bytes. -/
def beBytes (k n : Nat) : List Nat :=
  match k with
  | 0 => []
  | k + 1 => beBytes k (n / 256) ++ [n % 256]

/-- SHA-256 padding: append `0x80`, zeros to 56 mod 64, and the bit length on
8 big-endian bytes. -/
def sha256Pad (ms : List Nat) : List Nat :=
  ms ++ [128] ++ List.replicate ((64 - (ms.length + 9) % 64) % 64) 0 ++
    beBytes 8 (ms.length * 8)

/-- Group bytes four at a time into big-endian 32-bit words. -/
def toWords : List Nat → List Nat
  | a :: b :: c :: d :: rest => (((a * 256 + b) * 256 + c) * 256 + d) :: toWords rest
  | _ => []

/-- Split a byte list into 64-byte chunks; the fuel argument (instantiated
with the list length) only makes the recursion structural. -/
def chunks64Aux : Nat → List Nat → List (List Nat)
  | 0, _ => []
  | _ + 1, [] => []
  | fuel + 1, l => l.take 64 :: chunks64Aux fuel (l.drop 64)

/-- Split a byte list into 64-byte chunks. -/
def chunks64 (l : List Nat) : List (List Nat) := chunks64Aux l.length l

/-- Indexing with default `0` into the message schedule. -/
def wAt (ws : List Nat) (i : Nat) : Nat := ws.getD i 0

/-- Extend the 16 chunk words to the 64-entry message schedule. -/
def extendSchedule (ws : List Nat) : List Nat :=
  (List.range 64).foldl
    (fun acc i =>
      if i < 16 then acc
      else acc ++ [w32 (wAt acc (i - 16) + ssig0 (wAt acc (i - 15)) +
        wAt acc (i - 7) + ssig1 (wAt acc (i - 2)))])
    ws

/-- One SHA-256 compression round on state `st` with round constant and
schedule word `kw`. -/
def compressStep (st : Hash8) (kw : Nat × Nat) : Hash8 :=
  let t1 := w32 (st.h + bsig1 st.e + ch32 st.e st.f st.g + kw.1 + kw.2)
  let t2 := w32 (bsig0 st.a + maj32 st.a st.b st.c)
  ⟨w32 (t1 + t2), st.a, st.b, st.c, w32 (st.d + t1), st.e, st.f, st.g⟩

/-- Process one 64-byte chunk: 64 compression rounds, then add the round
state to the incoming state. -/
def processChunk (st : Hash8) (chunk : List Nat) : Hash8 :=
  let ws := extendSchedule (toWords chunk)
  let r := (sha256K.zip ws).foldl compressStep st
  ⟨w32 (st.a + r.a), w32 (st.b + r.b), w32 (st.c + r.c), w32 (st.d + r.d),
   w32 (st.e + r.e), w32 (st.f + r.f), w32 (st.g + r.g), w32 (st.h + r.h)⟩

/-- Big-endian bytes of one 32-bit word. -/
def wordBE (n : Nat) : List Nat :=
  [n / 16777216 % 256, n / 65536 % 256, n / 256 % 256, n % 256]

/-- The 32 digest bytes of a final SHA-256 state. -/
def digestBytes (s : Hash8) : List Nat :=
  wordBE s.a ++ wordBE s.b ++ wordBE s.c ++ wordBE s.d ++
    wordBE s.e ++ wordBE s.f ++ wordBE s.g ++ wordBE s.h

/-- SHA-256 of a byte list. -/
def sha256 (ms : List Nat) : List Nat :=
  digestBytes ((chunks64 (sha256Pad ms)).foldl processChunk sha256Init)

/-- HMAC key normalisation: hash keys longer than the 64-byte block, then
zero-pad to the block size. -/
def hmacKey (key : List Nat) : List Nat :=
  let k0 := if 64 < key.length then sha256 key else key
  k0 ++ List.replicate (64 - k0.length) 0

/-- HMAC-SHA256 of `msg` under `key`
(`0x5c = 92` outer pad, `0x36 = 54` inner pad). -/
def hmacSha256 (key msg : List Nat) : List Nat :=
  let k := hmacKey key
  sha256 ((k.map (fun b => b ^^^ 92)) ++ sha256 ((k.map (fun b => b ^^^ 54)) ++ msg))

/-- UTF-8 encoding of one code point (Node `Buffer.from(s, "utf8")`). -/
def utf8Bytes (c : Nat) : List Nat :=
  if c < 128 then [c]
  else if c < 2048 then [192 + c / 64, 128 + c % 64]
  else if c < 65536 then [224 + c / 4096, 128 + c / 64 % 64, 128 + c % 64]
  else [240 + c / 262144, 128 + c / 4096 % 64, 128 + c / 64 % 64, 128 + c % 64]

/-- UTF-8 bytes of a string, as Node hands a string key or payload to the
HMAC. -/
def strToBytes (s : String) : List Nat :=
  s.data.flatMap fun ch => utf8Bytes ch.toNat

/-! ## The nonce, the timestamp, and `generateSig` -/

/-- Version and variant adjustment of the 16 random bytes of an RFC 4122
version-4 UUID (byte 6 keeps its low nibble under version `4`, byte 8 keeps
its low six bits under variant `10`). -/
def uuidBytesAdjust (bs : List Nat) : List Nat :=
  bs.mapIdx fun i b =>
    if i = 6 then 64 + b % 16 else if i = 8 then 128 + b % 64 else b % 256

/-- Node `crypto.randomUUID()` on the given 16 random bytes: lowercase hex
in the `8-4-4-4-12` hyphenated layout. -/
def randomUUID (bs : List Nat) : String :=
  let a := uuidBytesAdjust bs
  bytesToHex (a.take 4) ++ "-" ++ bytesToHex ((a.drop 4).take 2) ++ "-" ++
    bytesToHex ((a.drop 6).take 2) ++ "-" ++ bytesToHex ((a.drop 8).take 2) ++ "-" ++
    bytesToHex (a.drop 10)

/-- The signature generator (`generateSig`), instrumented: the second
component records whether the HMAC was computed.  `windowDefined` models
`typeof window !== "undefined"`, `timestamp` is `Date.now()` and `uuidBytes`
the 16 random bytes behind `crypto.randomUUID()`.  Validation order is that
of the source: key presence, the `pk_` prefix, then the browser guard; only
the final branch builds the payload and computes the HMAC. -/
def generateSigTr (secretKey : String) (windowDefined : Bool) (timestamp : Nat)
    (uuidBytes : List Nat) : Except String (String × String) × Bool :=
  if secretKey = "" then
    (Except.error "Secret key is required", false)
  else if jsStartsWith secretKey "pk_" then
    (Except.error "Secret key is invalid. You are currently using a public key", false)
  else if windowDefined then
    (Except.error
      "Secret key should not be used in the browser. Please only use it in a server environment.",
      false)
  else
    let payload := randomUUID uuidBytes ++ ":" ++ decRepr timestamp
    let signature := bytesToHex (hmacSha256 (strToBytes secretKey) (strToBytes payload))
    (Except.ok (payload, signature), true)

/-- The signature generator's returned value (or thrown error). -/
def generateSig (secretKey : String) (windowDefined : Bool) (timestamp : Nat)
    (uuidBytes : List Nat) : Except String (String × String) :=
  (generateSigTr secretKey windowDefined timestamp uuidBytes).1


/-! ## Helper lemmas -/

theorem data_mk (l : List Char) : (String.mk l).data = l := rfl

theorem str_data_append (s t : String) : (s ++ t).data = s.data ++ t.data := by
  cases s
  cases t
  rfl

theorem jsStartsWith_sk_ne_empty {s : String} (h : jsStartsWith s "sk_" = true) :
    s ≠ "" := by
  intro he
  subst he
  exact absurd h (by decide)

theorem jsStartsWith_pk_ne_empty {s : String} (h : jsStartsWith s "pk_" = true) :
    s ≠ "" := by
  intro he
  subst he
  exact absurd h (by decide)

theorem bytesToHexChars_cons (b : Nat) (t : List Nat) :
    bytesToHexChars (b :: t) =
      hexDigit (b / 16 % 16) :: hexDigit (b % 16) :: bytesToHexChars t := rfl

theorem bytesToHexChars_length (bs : List Nat) :
    (bytesToHexChars bs).length = 2 * bs.length := by
  induction bs with
  | nil => rfl
  | cons b t ih =>
    rw [bytesToHexChars_cons]
    simp only [List.length_cons, ih]
    omega

theorem hexDigit_mem (n : Nat) : hexDigit n ∈ lowerHexChars := by
  unfold hexDigit
  split <;> decide

theorem hexDigit_ne_colon (n : Nat) : hexDigit n ≠ ':' := by
  unfold hexDigit
  split <;> decide

theorem mem_bytesToHexChars {c : Char} {bs : List Nat} (h : c ∈ bytesToHexChars bs) :
    c ∈ lowerHexChars := by
  induction bs with
  | nil => cases h
  | cons b t ih =>
    rw [bytesToHexChars_cons] at h
    rcases List.mem_cons.mp h with h | h
    · exact h ▸ hexDigit_mem _
    rcases List.mem_cons.mp h with h | h
    · exact h ▸ hexDigit_mem _
    · exact ih h

theorem colon_notMem_bytesToHexChars (bs : List Nat) : ':' ∉ bytesToHexChars bs := by
  intro h
  exact absurd (mem_bytesToHexChars h) (by decide)

theorem count_colon_bytesToHexChars (bs : List Nat) : (bytesToHexChars bs).count ':' = 0 :=
  List.count_eq_zero.mpr (colon_notMem_bytesToHexChars bs)

theorem colon_notMem_decDigitsAux (fuel n : Nat) : ':' ∉ decDigitsAux fuel n := by
  induction fuel generalizing n with
  | zero => simp [decDigitsAux]
  | succ fuel ih =>
    unfold decDigitsAux
    split
    · intro h
      rcases List.mem_cons.mp h with h | h
      · exact hexDigit_ne_colon _ h.symm
      · cases h
    · intro h
      rcases List.mem_append.mp h with h | h
      · exact ih _ h
      · rcases List.mem_cons.mp h with h | h
        · exact hexDigit_ne_colon _ h.symm
        · cases h

theorem count_colon_decRepr (n : Nat) : ((decRepr n).data).count ':' = 0 :=
  List.count_eq_zero.mpr (colon_notMem_decDigitsAux _ _)

theorem count_colon_randomUUID (bs : List Nat) : ((randomUUID bs).data).count ':' = 0 := by
  have hd : ("-" : String).data = ['-'] := rfl
  unfold randomUUID
  simp only [str_data_append, List.count_append, bytesToHex, data_mk, hd,
    count_colon_bytesToHexChars]
  decide

theorem digestBytes_length (s : Hash8) : (digestBytes s).length = 32 := by
  simp [digestBytes, wordBE]

theorem sha256_length (ms : List Nat) : (sha256 ms).length = 32 := by
  unfold sha256
  exact digestBytes_length _

theorem hmacSha256_length (key msg : List Nat) : (hmacSha256 key msg).length = 32 := by
  unfold hmacSha256
  exact sha256_length _

theorem jsTotal_pos (t : Option Nat) : 1 ≤ jsTotal t := by
  unfold jsTotal
  split
  · split <;> omega
  · omega

theorem jsRound_le_100 {l t : Nat} (ht : 1 ≤ t) (hl : l ≤ t) :
    jsRound (l * 100) t ≤ 100 := by
  have h : jsRound (l * 100) t < 101 := by
    unfold jsRound
    rw [Nat.div_lt_iff_lt_mul (by omega : 0 < 2 * t)]
    omega
  omega

/-! ## Step lemmas for the upload pipeline -/

theorem uploadFn_emptyKey (hs : Option String) (file : FileArg) (opts : UploadOptions)
    (rb : List Nat) (env : Env) :
    uploadFn "" hs file opts rb env =
      { result := Except.error "Public key is required", calls := [], progress := [] } := by
  unfold uploadFn
  rw [if_pos rfl]

theorem uploadFn_skKey {pk : String} (hs : Option String) (file : FileArg)
    (opts : UploadOptions) (rb : List Nat) (env : Env)
    (h : jsStartsWith pk "sk_" = true) :
    uploadFn pk hs file opts rb env =
      { result := Except.error "Public key is invalid. You are currently using a secret key",
        calls := [], progress := [] } := by
  unfold uploadFn
  rw [if_neg (jsStartsWith_sk_ne_empty h), if_pos h]

theorem uploadFn_notBlob {pk : String} (hs : Option String) (file : FileArg)
    (opts : UploadOptions) (rb : List Nat) (env : Env)
    (h1 : pk ≠ "") (h2 : jsStartsWith pk "sk_" = false)
    (h3 : file.kind = FileKind.notBlob) :
    uploadFn pk hs file opts rb env =
      { result := Except.error "Invalid file passed in. Please pass in a File or Blob",
        calls := [], progress := [] } := by
  unfold uploadFn
  rw [if_neg h1, if_neg (by simp [h2]), if_pos h3]

theorem uploadFn_keysOk {pk : String} (hs : Option String) (file : FileArg)
    (opts : UploadOptions) (rb : List Nat) (env : Env)
    (h1 : pk ≠ "") (h2 : jsStartsWith pk "sk_" = false)
    (h3 : file.kind ≠ FileKind.notBlob) :
    uploadFn pk hs file opts rb env =
      sigStep hs
        (jsOrStr opts.name (if file.kind = FileKind.file then file.name else bytesToHex rb))
        file opts env := by
  unfold uploadFn
  rw [if_neg h1, if_neg (by simp [h2]), if_neg h3]

theorem sigStep_ok (hs : Option String) (name : String) (file : FileArg)
    (opts : UploadOptions) (env : Env)
    (h : hs = none ∨
      (env.sigRes.ok = true ∧ env.sigRes.signature ≠ "" ∧ env.sigRes.payload ≠ "")) :
    ∃ sig calls0, sigStep hs name file opts env = prepareStep name file opts sig calls0 env ∧
      transferCount calls0 = 0 ∧ prepareCount calls0 = 0 := by
  cases hs with
  | none => exact ⟨none, [], rfl, rfl, rfl⟩
  | some u =>
    rcases h with h | ⟨h1, h2, h3⟩
    · cases h
    · refine ⟨some (env.sigRes.signature, env.sigRes.payload), [NetCall.sigReq u], ?_, rfl, rfl⟩
      simp only [sigStep]
      rw [if_neg (by simp [h1]), if_neg h2, if_neg h3]

theorem transferStep_calls (calls0 : List NetCall) (opts : UploadOptions) (env : Env) :
    ∃ rest, (transferStep calls0 opts env).calls = calls0 ++ rest := by
  simp only [transferStep, confirmStep]
  split_ifs <;> first
    | exact ⟨_, rfl⟩
    | exact ⟨_, List.append_assoc _ _ _⟩

theorem prepareStep_issues_request (name : String) (file : FileArg) (opts : UploadOptions)
    (sig : Option (String × String)) (calls0 : List NetCall) (env : Env) :
    NetCall.prepareReq (mkPrepareBody name file opts sig) ∈
      (prepareStep name file opts sig calls0 env).calls := by
  simp only [prepareStep]
  split_ifs
  · exact List.mem_append.mpr (Or.inr (List.mem_singleton_self _))
  · exact List.mem_append.mpr (Or.inr (List.mem_singleton_self _))
  · obtain ⟨rest, hr⟩ := transferStep_calls _ opts env
    rw [hr]
    exact List.mem_append.mpr (Or.inl (List.mem_append.mpr (Or.inr (List.mem_singleton_self _))))

theorem prepareStep_okResp (name : String) (file : FileArg) (opts : UploadOptions)
    (sig : Option (String × String)) (calls0 : List NetCall) (env : Env)
    (hok : env.prepareRes.ok = true) (hurl : env.prepareRes.url ≠ "")
    (hfields : env.prepareRes.fields.isNone = false)
    (htok : env.prepareRes.confirmToken ≠ "") :
    prepareStep name file opts sig calls0 env =
      transferStep (calls0 ++ [NetCall.prepareReq (mkPrepareBody name file opts sig)])
        opts env := by
  simp only [prepareStep]
  rw [if_neg (by simp [hok]), if_neg (by simp [hurl, hfields, htok])]

theorem prepareStep_emptyToken (name : String) (file : FileArg) (opts : UploadOptions)
    (sig : Option (String × String)) (calls0 : List NetCall) (env : Env)
    (hok : env.prepareRes.ok = true) (htok : env.prepareRes.confirmToken = "") :
    (∃ e, (prepareStep name file opts sig calls0 env).result = Except.error e) ∧
    transferCount (prepareStep name file opts sig calls0 env).calls =
      transferCount calls0 := by
  simp only [prepareStep]
  rw [if_neg (by simp [hok]), if_pos (Or.inr (Or.inr htok))]
  refine ⟨⟨_, rfl⟩, ?_⟩
  simp [transferCount]

theorem transferStep_non2xx (calls0 : List NetCall) (opts : UploadOptions) (env : Env)
    (h : env.transfer.status < 200 ∨ 300 ≤ env.transfer.status) :
    (transferStep calls0 opts env).result =
      Except.error ("Request failed with status code " ++ decRepr env.transfer.status) := by
  simp only [transferStep]
  rw [if_pos h]

/-! ## Lemmas for the signature generator -/

theorem generateSigTr_pkKey {sk : String} (w : Bool) (t : Nat) (bs : List Nat)
    (h : jsStartsWith sk "pk_" = true) :
    generateSigTr sk w t bs =
      (Except.error "Secret key is invalid. You are currently using a public key",
        false) := by
  unfold generateSigTr
  rw [if_neg (jsStartsWith_pk_ne_empty h), if_pos h]

theorem generateSigTr_ok {sk : String} (t : Nat) (bs : List Nat)
    (h1 : sk ≠ "") (h2 : jsStartsWith sk "pk_" = false) :
    generateSigTr sk false t bs =
      (Except.ok (randomUUID bs ++ ":" ++ decRepr t,
        bytesToHex (hmacSha256 (strToBytes sk)
          (strToBytes (randomUUID bs ++ ":" ++ decRepr t)))), true) := by
  unfold generateSigTr
  rw [if_neg h1, if_neg (by simp [h2]), if_neg (by simp)]

/-! ## Sanity checks: known-answer tests for the embedded primitives -/

set_option maxRecDepth 100000 in
example : bytesToHex (sha256 []) =
    "e3b0c44298fc1c149afbf4c8996fb92427ae41e4649b934ca495991b7852b855" := by decide

set_option maxRecDepth 100000 in
example : bytesToHex (hmacSha256 (List.replicate 20 11) (strToBytes "Hi There")) =
    "b0344c61d8db38535ca8afceaf0bf12b881dc200c9833da726e9376c2e32cff7" := by decide

example :
    (uploadFn "pk_a" none ⟨FileKind.file, "test.txt", "text/plain", 4⟩ ⟨none, none, true⟩
      [1, 2, 3, 4, 5, 6, 7, 8]
      ⟨⟨true, "s", "p"⟩, ⟨true, "", "https://dest", some [("k", "v")], "tok"⟩,
        ⟨204, [⟨2, some 4⟩, ⟨4, some 4⟩]⟩,
        ⟨true, "", ⟨"id1", "https://cdn", "key1", "test.txt", 4, "text/plain"⟩⟩⟩).result
    = Except.ok ⟨"id1", "https://cdn", "key1", "test.txt", 4, "text/plain"⟩ := by
  decide

/-! ## Claim theorems -/

/-- C9: for every invocation of the returned upload function where the public
key is the empty string, regardless of the file and options supplied, it
rejects with "Public key is required" and issues no network call. -/
theorem restash_empty_public_key_rejects (hs : Option String) (file : FileArg)
    (opts : UploadOptions) (rb : List Nat) (env : Env) :
    createRestashUploader ⟨"", hs⟩ file opts rb env =
      { result := Except.error "Public key is required", calls := [], progress := [] } :=
  uploadFn_emptyKey hs file opts rb env

/-- C10: the uploader factory never throws — on every configuration its value
is the deferred upload computation — and within an invocation the public-key
checks (presence, then prefix) run before the file-validity check, so an
empty public key combined with an invalid (non-Blob) file yields
"Public key is required", and an `sk_`-prefixed key combined with an invalid
file yields the secret-key error, never the file-validation error. -/
theorem restash_factory_defers_validation :
    (∀ (o : RestashUploaderOptions) (file : FileArg) (opts : UploadOptions)
        (rb : List Nat) (env : Env),
      createRestashUploader o file opts rb env =
        uploadFn o.publicKey o.handleSignature file opts rb env) ∧
    (∀ (hs : Option String) (fname ftype : String) (fsize : Nat)
        (opts : UploadOptions) (rb : List Nat) (env : Env),
      createRestashUploader ⟨"", hs⟩ ⟨FileKind.notBlob, fname, ftype, fsize⟩ opts rb env =
        { result := Except.error "Public key is required", calls := [], progress := [] }) ∧
    (∀ (pk : String) (hs : Option String) (fname ftype : String) (fsize : Nat)
        (opts : UploadOptions) (rb : List Nat) (env : Env),
      jsStartsWith pk "sk_" = true →
      createRestashUploader ⟨pk, hs⟩ ⟨FileKind.notBlob, fname, ftype, fsize⟩ opts rb env =
        { result := Except.error "Public key is invalid. You are currently using a secret key",
          calls := [], progress := [] }) := by
  refine ⟨?_, ?_, ?_⟩
  · intro o file opts rb env
    rfl
  · intro hs fname ftype fsize opts rb env
    exact uploadFn_emptyKey hs _ opts rb env
  · intro pk hs fname ftype fsize opts rb env h
    exact uploadFn_skKey hs _ opts rb env h

theorem restash_factory_defers_validation_witness :
    (createRestashUploader ⟨"pk_x", none⟩ ⟨FileKind.file, "a.txt", "text/plain", 1⟩
        ⟨none, none, false⟩ []
        ⟨⟨false, "", ""⟩, ⟨false, "", "", none, ""⟩, ⟨0, []⟩, ⟨false, "", ⟨"", "", "", "", 0, ""⟩⟩⟩ =
      uploadFn "pk_x" none ⟨FileKind.file, "a.txt", "text/plain", 1⟩ ⟨none, none, false⟩ []
        ⟨⟨false, "", ""⟩, ⟨false, "", "", none, ""⟩, ⟨0, []⟩, ⟨false, "", ⟨"", "", "", "", 0, ""⟩⟩⟩) ∧
    (createRestashUploader ⟨"", none⟩ ⟨FileKind.notBlob, "", "", 0⟩ ⟨none, none, false⟩ []
        ⟨⟨false, "", ""⟩, ⟨false, "", "", none, ""⟩, ⟨0, []⟩, ⟨false, "", ⟨"", "", "", "", 0, ""⟩⟩⟩ =
      { result := Except.error "Public key is required", calls := [], progress := [] }) ∧
    (createRestashUploader ⟨"sk_1234567890", none⟩ ⟨FileKind.notBlob, "", "", 0⟩
        ⟨none, none, false⟩ []
        ⟨⟨false, "", ""⟩, ⟨false, "", "", none, ""⟩, ⟨0, []⟩, ⟨false, "", ⟨"", "", "", "", 0, ""⟩⟩⟩ =
      { result := Except.error "Public key is invalid. You are currently using a secret key",
        calls := [], progress := [] }) :=
  ⟨restash_factory_defers_validation.1 _ _ _ _ _,
   restash_factory_defers_validation.2.1 _ _ _ _ _ _ _,
   restash_factory_defers_validation.2.2 _ _ _ _ _ _ _ _ (by decide)⟩

/-- C6: every `sk_`-prefixed public key is rejected with
"Public key is invalid. You are currently using a secret key"; every
`pk_`-prefixed secret key makes the signature generator throw
"Secret key is invalid. You are currently using a public key"; and no other
cross-field key validation exists — any non-empty, non-`sk_` public key
passes the key checks (an invalid file then reaches the file-validity
error), and any non-empty, non-`pk_` secret key outside the browser makes
the generator succeed. -/
theorem restash_key_cross_validation :
    (∀ (pk : String) (hs : Option String) (file : FileArg) (opts : UploadOptions)
        (rb : List Nat) (env : Env), jsStartsWith pk "sk_" = true →
      uploadFn pk hs file opts rb env =
        { result := Except.error "Public key is invalid. You are currently using a secret key",
          calls := [], progress := [] }) ∧
    (∀ (sk : String) (w : Bool) (t : Nat) (bs : List Nat), jsStartsWith sk "pk_" = true →
      generateSig sk w t bs =
        Except.error "Secret key is invalid. You are currently using a public key") ∧
    (∀ (pk : String) (hs : Option String) (fname ftype : String) (fsize : Nat)
        (opts : UploadOptions) (rb : List Nat) (env : Env),
      pk ≠ "" → jsStartsWith pk "sk_" = false →
      uploadFn pk hs ⟨FileKind.notBlob, fname, ftype, fsize⟩ opts rb env =
        { result := Except.error "Invalid file passed in. Please pass in a File or Blob",
          calls := [], progress := [] }) ∧
    (∀ (sk : String) (t : Nat) (bs : List Nat), sk ≠ "" → jsStartsWith sk "pk_" = false →
      ∃ pr, generateSig sk false t bs = Except.ok pr) := by
  refine ⟨?_, ?_, ?_, ?_⟩
  · intro pk hs file opts rb env h
    exact uploadFn_skKey hs file opts rb env h
  · intro sk w t bs h
    unfold generateSig
    rw [generateSigTr_pkKey w t bs h]
  · intro pk hs fname ftype fsize opts rb env h1 h2
    exact uploadFn_notBlob hs _ opts rb env h1 h2 rfl
  · intro sk t bs h1 h2
    refine ⟨(randomUUID bs ++ ":" ++ decRepr t,
      bytesToHex (hmacSha256 (strToBytes sk)
        (strToBytes (randomUUID bs ++ ":" ++ decRepr t)))), ?_⟩
    unfold generateSig
    rw [generateSigTr_ok t bs h1 h2]

theorem restash_key_cross_validation_witness :
    (uploadFn "sk_1234567890" none ⟨FileKind.file, "a.txt", "text/plain", 1⟩
        ⟨none, none, false⟩ []
        ⟨⟨false, "", ""⟩, ⟨false, "", "", none, ""⟩, ⟨0, []⟩, ⟨false, "", ⟨"", "", "", "", 0, ""⟩⟩⟩ =
      { result := Except.error "Public key is invalid. You are currently using a secret key",
        calls := [], progress := [] }) ∧
    (generateSig "pk_1234567890" true 0 [] =
      Except.error "Secret key is invalid. You are currently using a public key") ∧
    (uploadFn "pk_a" none ⟨FileKind.notBlob, "", "", 0⟩ ⟨none, none, false⟩ []
        ⟨⟨false, "", ""⟩, ⟨false, "", "", none, ""⟩, ⟨0, []⟩, ⟨false, "", ⟨"", "", "", "", 0, ""⟩⟩⟩ =
      { result := Except.error "Invalid file passed in. Please pass in a File or Blob",
        calls := [], progress := [] }) ∧
    (∃ pr, generateSig "whsec_1" false 0 (List.replicate 16 0) = Except.ok pr) :=
  ⟨restash_key_cross_validation.1 _ none _ _ _ _ (by decide),
   restash_key_cross_validation.2.1 _ _ _ _ (by decide),
   restash_key_cross_validation.2.2.1 _ none "" "" 0 _ _ _ (by decide) (by decide),
   restash_key_cross_validation.2.2.2 _ _ _ (by decide) (by decide)⟩

/-- C8: for every input, in a browser-like context (the `window` marker is
defined) the signature generator throws before computing any HMAC — the
result is an error and the instrumentation flag recording an HMAC
computation is `false`. -/
theorem restash_browser_guard (sk : String) (t : Nat) (bs : List Nat) :
    (∃ e, (generateSigTr sk true t bs).1 = Except.error e) ∧
    (generateSigTr sk true t bs).2 = false := by
  unfold generateSigTr
  split_ifs with c1 c2 c3
  · exact ⟨⟨_, rfl⟩, rfl⟩
  · exact ⟨⟨_, rfl⟩, rfl⟩
  · exact ⟨⟨_, rfl⟩, rfl⟩
  · exact absurd rfl c3

/-- C2: whenever the prepare-step response is HTTP-successful but its body
lacks a `confirmToken` (absent and empty are both falsy), the upload function
terminates with an error and issues no transfer-step request to the
destination URL, on every path through the pipeline. -/
theorem restash_missing_confirm_token_no_transfer (pk : String) (hs : Option String)
    (file : FileArg) (opts : UploadOptions) (rb : List Nat) (env : Env)
    (hok : env.prepareRes.ok = true) (htok : env.prepareRes.confirmToken = "") :
    (∃ e, (uploadFn pk hs file opts rb env).result = Except.error e) ∧
    transferCount (uploadFn pk hs file opts rb env).calls = 0 := by
  by_cases h1 : pk = ""
  · subst h1
    rw [uploadFn_emptyKey]
    exact ⟨⟨_, rfl⟩, rfl⟩
  by_cases h2 : jsStartsWith pk "sk_" = true
  · rw [uploadFn_skKey hs file opts rb env h2]
    exact ⟨⟨_, rfl⟩, rfl⟩
  rw [Bool.not_eq_true] at h2
  by_cases h3 : file.kind = FileKind.notBlob
  · rw [uploadFn_notBlob hs file opts rb env h1 h2 h3]
    exact ⟨⟨_, rfl⟩, rfl⟩
  rw [uploadFn_keysOk hs file opts rb env h1 h2 h3]
  cases hs with
  | none =>
    exact prepareStep_emptyToken _ file opts none [] env hok htok
  | some u =>
    simp only [sigStep]
    split_ifs <;>
      first
        | exact ⟨⟨_, rfl⟩, rfl⟩
        | exact prepareStep_emptyToken _ file opts _ [NetCall.sigReq u] env hok htok

theorem restash_missing_confirm_token_no_transfer_witness :
    (∃ e, (uploadFn "pk_a" none ⟨FileKind.file, "a.txt", "text/plain", 4⟩ ⟨none, none, false⟩ []
        ⟨⟨false, "", ""⟩, ⟨true, "", "https://dest", some [], ""⟩, ⟨204, []⟩,
          ⟨false, "", ⟨"", "", "", "", 0, ""⟩⟩⟩).result = Except.error e) ∧
    transferCount (uploadFn "pk_a" none ⟨FileKind.file, "a.txt", "text/plain", 4⟩
        ⟨none, none, false⟩ []
        ⟨⟨false, "", ""⟩, ⟨true, "", "https://dest", some [], ""⟩, ⟨204, []⟩,
          ⟨false, "", ⟨"", "", "", "", 0, ""⟩⟩⟩).calls = 0 :=
  restash_missing_confirm_token_no_transfer _ _ _ _ _ _ (by decide) (by decide)

/-- C3 (code bug): the claimed message is in the code — `throw new
Error("Failed to upload file")` guards exactly the non-2xx statuses, and the
earlier revision made it reachable with `validateStatus: () => true` — but
this revision calls `axios.post` without that option, so axios's default
validation rejects every non-2xx destination response with
"Request failed with status code N" first and the claimed throw is dead
code.  At a 500 response (valid key and file, well-formed prepare response)
the upload terminates with the axios message, not "Failed to upload file". -/
theorem restash_transfer_non2xx_axios_error :
    (uploadFn "pk_a" none ⟨FileKind.file, "a.txt", "text/plain", 4⟩ ⟨none, none, false⟩ []
      ⟨⟨false, "", ""⟩, ⟨true, "", "https://dest", some [("k", "v")], "tok"⟩, ⟨500, []⟩,
        ⟨false, "", ⟨"", "", "", "", 0, ""⟩⟩⟩).result =
      Except.error "Request failed with status code 500" ∧
    ("Request failed with status code 500" : String) ≠ "Failed to upload file" :=
  ⟨by decide, by decide⟩

/-- C4: whenever the signature endpoint responds HTTP-successfully but with an
empty `signature` field, the upload (with valid key and file, so that the
signature step is reached) terminates with
"Your signature endpoint did not return a valid signature" — a message
containing "did not return a valid signature" — and no prepare-step request
is issued. -/
theorem restash_empty_signature_no_prepare (pk u : String) (file : FileArg)
    (opts : UploadOptions) (rb : List Nat) (env : Env)
    (h1 : pk ≠ "") (h2 : jsStartsWith pk "sk_" = false)
    (h3 : file.kind ≠ FileKind.notBlob)
    (hok : env.sigRes.ok = true) (hsg : env.sigRes.signature = "") :
    (uploadFn pk (some u) file opts rb env).result =
      Except.error "Your signature endpoint did not return a valid signature" ∧
    prepareCount (uploadFn pk (some u) file opts rb env).calls = 0 := by
  rw [uploadFn_keysOk (some u) file opts rb env h1 h2 h3]
  simp only [sigStep]
  rw [if_neg (by simp [hok]), if_pos hsg]
  exact ⟨rfl, rfl⟩

theorem restash_empty_signature_no_prepare_witness :
    (uploadFn "pk_a" (some "/api/sig") ⟨FileKind.file, "a.txt", "text/plain", 4⟩
        ⟨none, none, false⟩ []
        ⟨⟨true, "", "123"⟩, ⟨true, "", "https://dest", some [], "tok"⟩, ⟨204, []⟩,
          ⟨false, "", ⟨"", "", "", "", 0, ""⟩⟩⟩).result =
      Except.error "Your signature endpoint did not return a valid signature" ∧
    prepareCount (uploadFn "pk_a" (some "/api/sig") ⟨FileKind.file, "a.txt", "text/plain", 4⟩
        ⟨none, none, false⟩ []
        ⟨⟨true, "", "123"⟩, ⟨true, "", "https://dest", some [], "tok"⟩, ⟨204, []⟩,
          ⟨false, "", ⟨"", "", "", "", 0, ""⟩⟩⟩).calls = 0 :=
  restash_empty_signature_no_prepare _ _ _ _ _ _ (by decide) (by decide) (by decide)
    (by decide) (by decide)

/-- C5: for a Blob that is not a File, with no explicit name in the options,
the upload does not reject for the missing name: it reaches the prepare
request, whose body carries the generated display name
`randomBytes(8).toString("hex")` — a 16-character string of lowercase
hexadecimal characters. -/
theorem restash_blob_random_name (pk : String) (hs : Option String) (bn ftype : String)
    (fsize : Nat) (path : Option String) (hasOn : Bool) (rb : List Nat) (env : Env)
    (h1 : pk ≠ "") (h2 : jsStartsWith pk "sk_" = false) (hrb : rb.length = 8)
    (hsig : hs = none ∨
      (env.sigRes.ok = true ∧ env.sigRes.signature ≠ "" ∧ env.sigRes.payload ≠ "")) :
    (∃ b, NetCall.prepareReq b ∈
        (uploadFn pk hs ⟨FileKind.blob, bn, ftype, fsize⟩ ⟨none, path, hasOn⟩ rb env).calls ∧
      b.name = bytesToHex rb) ∧
    (bytesToHex rb).length = 16 ∧
    ∀ c ∈ (bytesToHex rb).data, c ∈ lowerHexChars := by
  refine ⟨?_, ?_, ?_⟩
  · rw [uploadFn_keysOk hs ⟨FileKind.blob, bn, ftype, fsize⟩ ⟨none, path, hasOn⟩ rb env
      h1 h2 (fun h => FileKind.noConfusion h)]
    have hname : jsOrStr (none : Option String)
        (if (⟨FileKind.blob, bn, ftype, fsize⟩ : FileArg).kind = FileKind.file then bn
          else bytesToHex rb) = bytesToHex rb := rfl
    obtain ⟨sig, calls0, hstep, -, -⟩ := sigStep_ok hs _ _ ⟨none, path, hasOn⟩ env hsig
    rw [hstep]
    exact ⟨mkPrepareBody _ _ _ sig, prepareStep_issues_request _ _ _ sig calls0 env, hname⟩
  · show (bytesToHexChars rb).length = 16
    rw [bytesToHexChars_length, hrb]
  · intro c hc
    exact mem_bytesToHexChars hc

theorem restash_blob_random_name_witness :
    (∃ b, NetCall.prepareReq b ∈
        (uploadFn "pk_a" none ⟨FileKind.blob, "", "text/plain", 4⟩ ⟨none, none, false⟩
          [1, 2, 3, 4, 5, 6, 7, 8]
          ⟨⟨false, "", ""⟩, ⟨true, "", "https://dest", some [], "tok"⟩, ⟨204, []⟩,
            ⟨false, "", ⟨"", "", "", "", 0, ""⟩⟩⟩).calls ∧
      b.name = bytesToHex [1, 2, 3, 4, 5, 6, 7, 8]) ∧
    (bytesToHex [1, 2, 3, 4, 5, 6, 7, 8]).length = 16 ∧
    ∀ c ∈ (bytesToHex [1, 2, 3, 4, 5, 6, 7, 8]).data, c ∈ lowerHexChars :=
  restash_blob_random_name _ _ _ _ _ _ _ _ _ (by decide) (by decide) (by decide)
    (Or.inl rfl)

/-- C7: for every non-empty secret key without the `pk_` prefix, outside the
browser, the signature generator returns a pair whose `payload` is the
UUID nonce, a single `":"` separator, and the millisecond timestamp — so it
contains exactly one colon — and whose `signature` is the hex encoding of
`HMAC-SHA256(secretKey, payload)`: a 64-character string of lowercase
hexadecimal characters. -/
theorem restash_signature_shape (sk : String) (t : Nat) (bs : List Nat)
    (h1 : sk ≠ "") (h2 : jsStartsWith sk "pk_" = false) (_h3 : bs.length = 16) :
    ∃ p s, generateSig sk false t bs = Except.ok (p, s) ∧
      p = randomUUID bs ++ ":" ++ decRepr t ∧
      (p.data).count ':' = 1 ∧
      s = bytesToHex (hmacSha256 (strToBytes sk) (strToBytes p)) ∧
      s.length = 64 ∧
      ∀ c ∈ s.data, c ∈ lowerHexChars := by
  refine ⟨randomUUID bs ++ ":" ++ decRepr t,
    bytesToHex (hmacSha256 (strToBytes sk)
      (strToBytes (randomUUID bs ++ ":" ++ decRepr t))), ?_, rfl, ?_, rfl, ?_, ?_⟩
  · unfold generateSig
    rw [generateSigTr_ok t bs h1 h2]
  · have hc : (":" : String).data = [':'] := rfl
    rw [str_data_append, str_data_append, hc, List.count_append, List.count_append,
      count_colon_randomUUID, count_colon_decRepr]
    decide
  · show (bytesToHexChars _).length = 64
    rw [bytesToHexChars_length, hmacSha256_length]
  · intro c hc
    exact mem_bytesToHexChars hc

theorem restash_signature_shape_witness :
    ∃ p s, generateSig "whsec_test" false 1700000000000 (List.replicate 16 0) =
        Except.ok (p, s) ∧
      p = randomUUID (List.replicate 16 0) ++ ":" ++ decRepr 1700000000000 ∧
      (p.data).count ':' = 1 ∧
      s = bytesToHex (hmacSha256 (strToBytes "whsec_test") (strToBytes p)) ∧
      s.length = 64 ∧
      ∀ c ∈ s.data, c ∈ lowerHexChars :=
  restash_signature_shape _ _ _ (by decide) (by decide) (by decide)

/-- C1 (code bug): the transfer-progress handler computes
`percent = Math.round(loaded * 100 / (total || 1))` with `total` defaulting
to `1` when unknown, but does not clamp the result, so on an event with
unknown `total` and `loaded = 2` it passes `percent = 200` to the callback —
outside the documented `[0, 100]` range. -/
theorem restash_progress_percent_overflow :
    (uploadFn "pk_a" none ⟨FileKind.blob, "", "text/plain", 4⟩ ⟨none, none, true⟩
        [0, 0, 0, 0, 0, 0, 0, 0]
        ⟨⟨false, "", ""⟩, ⟨true, "", "https://dest", some [], "tok"⟩, ⟨204, [⟨2, none⟩]⟩,
          ⟨true, "", ⟨"i", "u", "k", "n", 4, "t"⟩⟩⟩).progress = [⟨200, 2, 1⟩] ∧
    ¬(200 ≤ 100) :=
  ⟨by decide, by decide⟩
